import Mathlib

/-!
Verification of the clinical-report filtering/scoring core of the
CovidDiagnosis repository (`users/algorithms/a_utils.py` and
`users/algorithms/GetClinicalReports.py`), shallowly embedded in Lean.

Cell values of the tabular data are modelled by `PyVal`; Python `==`
semantics (where `True == 1`, `NaN != NaN` for comparisons against
literals, etc.) is made explicit in the `pyEq*` helpers.
-/

namespace CovidDiag

/-- A Python value as it occurs in a pandas cell: booleans, integers,
finite floats (modelled as rationals), the float `NaN` (pandas missing
marker), strings, and `None`. -/
inductive PyVal where
  | bool (b : Bool)
  | int (n : Int)
  | float (q : Rat)
  | nan
  | str (s : String)
  | none
  deriving DecidableEq, Repr

/-- Python `v == True`.  `True == True`, `1 == True`, `1.0 == True`;
`NaN`, `None`, strings and other numbers compare unequal. -/
def pyEqTrue : PyVal → Bool
  | .bool b => b
  | .int n => n == 1
  | .float q => q == 1
  | .nan => false
  | .str _ => false
  | .none => false

/-- Python `v == 0`.  `False == 0`, `0 == 0`, `0.0 == 0`; everything
else (including `NaN` and strings) compares unequal. -/
def pyEqZero : PyVal → Bool
  | .bool b => !b
  | .int n => n == 0
  | .float q => q == 0
  | .nan => false
  | .str _ => false
  | .none => false

/-- `pandas.isnull` on a cell: `NaN` and `None` are missing. -/
def PyVal.isNull : PyVal → Bool
  | .nan => true
  | .none => true
  | _ => false

/-- A row is an association list from column names to values, as a
pandas `Series` restricted to the columns that are materialised.  A
column that is absent from the list reads as `NaN`, matching the
loader's union-of-columns behaviour (missing columns become nulls). -/
abbrev Row := List (String × PyVal)

/-- Look a column up in a row; absent columns read as `NaN`. -/
def Row.get (r : Row) (c : String) : PyVal :=
  match r.find? (fun p => p.1 == c) with
  | Option.some p => p.2
  | Option.none => .nan

/-- Set a column of a row to a value, replacing any previous value
(pandas column assignment). -/
def Row.set (r : Row) (c : String) (v : PyVal) : Row :=
  r.filter (fun p => p.1 != c) ++ [(c, v)]

/-! ### SymptomSeverityScorer (`a_utils.get_sym_severity_score`,
`a_utils.get_sym_severity`) -/

/-- The `SEVERITY_MAPPINGS` dict of `a_utils.py`, as an association
list from string keys to weights. -/
def SEVERITY_MAPPINGS : List (String × Int) :=
  [("Mild", 1), ("Moderate", 2), ("Severe", 3)]

/-- Python `SEVERITY_MAPPINGS.get(v, 0)`: a string key found in the
dict yields its weight; any other value (other strings, booleans,
numbers, `NaN`, `None`) yields the default 0. -/
def severityMappingsGet (v : PyVal) : Int :=
  match v with
  | .str s =>
    match (SEVERITY_MAPPINGS.find? (fun p => p.1 == s)) with
    | Option.some p => p.2
    | Option.none => 0
  | _ => 0

/-- `a_utils.get_sym_severity_score`: `-1` when `row['num_symptoms'] == 0`,
otherwise the severity weights of `cough_severity` and `sob_severity`
plus `1` when `row['fever'] == True`. -/
def get_sym_severity_score (row : Row) : Int :=
  if pyEqZero (row.get "num_symptoms") then -1
  else
    severityMappingsGet (row.get "cough_severity") +
    severityMappingsGet (row.get "sob_severity") +
    (if pyEqTrue (row.get "fever") then 1 else 0)

/-- `a_utils.get_sym_severity`: bucket a severity score into a label. -/
def get_sym_severity (score : Int) : String :=
  if score < 0 then "Asymptomatic"
  else if score < 1 then "Extremely Mild"
  else if score < 2 then "Mild"
  else if score < 3 then "Moderate"
  else "Severe"

/-! Spec-side definitions (from the spec's words, for refinement
claims C1 and C3). -/

/-- The spec's `severityWeight`: maps `Mild` to 1, `Moderate` to 2,
`Severe` to 3, and any other or absent value to 0. -/
def specSeverityWeight (v : PyVal) : Int :=
  if v = .str "Mild" then 1
  else if v = .str "Moderate" then 2
  else if v = .str "Severe" then 3
  else 0

/-- The spec's `score`: -1 when the row's `num_symptoms` field equals 0,
otherwise `severityWeight(cough_severity) + severityWeight(sob_severity)
+ (1 if fever == true else 0)` (equality read with Python semantics, as
in the spec's own `fever==true`). -/
def specScore (row : Row) : Int :=
  if pyEqZero (row.get "num_symptoms") then -1
  else
    specSeverityWeight (row.get "cough_severity") +
    specSeverityWeight (row.get "sob_severity") +
    (if pyEqTrue (row.get "fever") then 1 else 0)

/-- The spec's `bucket`, written with the spec's half-open intervals:
`score<0` Asymptomatic; `0<=score<1` Extremely Mild; `1<=score<2` Mild;
`2<=score<3` Moderate; `score>=3` Severe. -/
def specBucket (score : Int) : String :=
  if score < 0 then "Asymptomatic"
  else if 0 ≤ score ∧ score < 1 then "Extremely Mild"
  else if 1 ≤ score ∧ score < 2 then "Mild"
  else if 2 ≤ score ∧ score < 3 then "Moderate"
  else "Severe"

/-- Rank of a severity label in the ordering Asymptomatic < Extremely
Mild < Mild < Moderate < Severe. -/
def severityRank (label : String) : Nat :=
  if label = "Asymptomatic" then 0
  else if label = "Extremely Mild" then 1
  else if label = "Mild" then 2
  else if label = "Moderate" then 3
  else 4

/-! ### TextAbnormalityClassifier (`a_utils.is_abnormal_cxr`)

The pattern lists `ABNORMALITIES` and `NO_ABNORMALITIES` use only a
small fragment of Python regex syntax: literal text, `.+`, `.?`,
groups of literal alternatives `(a|b|c)`, and negative lookbehind on a
literal `(?<!No )`.  `Tok` is that fragment; a pattern is a token
sequence and `reSearch` is Python's `re.search` (match anywhere,
case-sensitive, `.` not matching a newline). -/

/-- One token of the regex fragment used by the CXR pattern lists. -/
inductive Tok where
  | lit (s : String)
  | anyPlus
  | anyOpt
  | alt (alts : List String)
  | negLB (s : String)
  deriving DecidableEq, Repr

/-- Run the continuation `mt` after consuming zero or more characters,
none of them a newline (the tail of a greedy `.+` or the scan across a
`.*`-like region).  `pre` is the reversed consumed prefix, `rest` the
remaining subject. -/
def matchMany (mt : List Char → List Char → Bool) :
    List Char → List Char → Bool
  | pre, rest =>
    mt pre rest ||
      match rest with
      | [] => false
      | c :: cs => c != '\n' && matchMany mt (c :: pre) cs

/-- Match a token sequence at the current position.  `pre` is the
reversed part of the subject already to the left of the position (used
by lookbehind), `rest` the part still to the right. -/
def matchToks : List Tok → List Char → List Char → Bool
  | [], _, _ => true
  | Tok.lit s :: ts, pre, rest =>
    s.data.isPrefixOf rest &&
      matchToks ts (s.data.reverse ++ pre) (rest.drop s.data.length)
  | Tok.alt alts :: ts, pre, rest =>
    alts.any (fun s =>
      s.data.isPrefixOf rest &&
        matchToks ts (s.data.reverse ++ pre) (rest.drop s.data.length))
  | Tok.negLB s :: ts, pre, rest =>
    !s.data.reverse.isPrefixOf pre && matchToks ts pre rest
  | Tok.anyOpt :: ts, pre, rest =>
    matchToks ts pre rest ||
      (match rest with
       | [] => false
       | c :: cs => c != '\n' && matchToks ts (c :: pre) cs)
  | Tok.anyPlus :: _, _, [] => false
  | Tok.anyPlus :: ts, pre, c :: cs =>
    c != '\n' && matchMany (matchToks ts) (c :: pre) cs

/-- Try to match starting at the current position or at any position
further right (the scan of `re.search`). -/
def searchFrom (toks : List Tok) : List Char → List Char → Bool
  | pre, rest =>
    matchToks toks pre rest ||
      match rest with
      | [] => false
      | c :: cs => searchFrom toks (c :: pre) cs

/-- Python `re.search(pattern, s) is not None` for a pattern of the
fragment. -/
def reSearch (toks : List Tok) (s : String) : Bool :=
  searchFrom toks [] s.data

/-- The `ABNORMALITIES` pattern list of `a_utils.py`, pattern by
pattern in source order, as token sequences. -/
def ABNORMALITIES : List (List Tok) :=
  [ [Tok.anyPlus, Tok.alt ["lobe", "RML", "peribronchial", "basilar"],
     Tok.lit " infiltrate"],
    [Tok.lit "lobe scarring or atelectasis"],
    [Tok.alt ["perihilar", "Trace"], Tok.anyPlus, Tok.lit "opacity"],
    [Tok.lit "Peribronchial thickeneing"],
    [Tok.lit "Left lower lobe consolidation"],
    [Tok.lit "Consolidation in the", Tok.anyPlus, Tok.lit "lung"],
    [Tok.negLB "No ", Tok.alt ["Multifocal", "lung", "pulmonary"],
     Tok.anyPlus, Tok.lit "opacities"],
    [Tok.lit "left pulmonary nodules"],
    [Tok.negLB "no ", Tok.lit " opacity"],
    [Tok.anyOpt, Tok.alt ["left", "Left"], Tok.lit " lung base"],
    [Tok.alt ["Subtle left basilar", "mass-like spiculated"],
     Tok.lit " density"],
    [Tok.lit "basilar atelectasis or scarring"],
    [Tok.lit "Elevated right hemidiaphragm"],
    [Tok.alt ["right hilar", "septal"], Tok.lit " prominence"] ]

/-- The `NO_ABNORMALITIES` pattern list of `a_utils.py`, pattern by
pattern in source order, as token sequences. -/
def NO_ABNORMALITIES : List (List Tok) :=
  [ [Tok.lit "No", Tok.anyPlus,
     Tok.alt ["acute", "significant", "definite", "suspicious"],
     Tok.anyPlus, Tok.alt ["abnormality", "disease", "opacities"]],
    [Tok.lit "Normal"],
    [Tok.lit "No pulmonary opacities visualized"],
    [Tok.lit "No evidence of acute cardiopulmonary disease"],
    [Tok.lit "No lobar consolidation"] ]

/-- `a_utils.is_abnormal_cxr`: the normal list is tried first (first
match yields `False` i.e. not abnormal), then the abnormal list (first
match yields `True`), otherwise `None`. -/
def is_abnormal_cxr (cxr_imp : String) : Option Bool :=
  if NO_ABNORMALITIES.any (fun p => reSearch p cxr_imp) then some false
  else if ABNORMALITIES.any (fun p => reSearch p cxr_imp) then some true
  else none

/-! ### Errors raised by Python at runtime -/

/-- Python exceptions the embedded fragments can raise:
`ZeroDivisionError` from `/`, `TypeError` from `math.isnan` on a
non-number. -/
inductive PyErr where
  | zeroDivisionError
  | typeError
  deriving DecidableEq, Repr

/-! ### RowPredicateFilters (`a_utils.is_any_true`,
`a_utils.is_any_nonnull`, `a_utils.get_percent`) -/

/-- `a_utils.is_any_true`: `any(row[col] == True for col in cols)`. -/
def is_any_true (row : Row) (cols : List String) : Bool :=
  cols.any (fun col => pyEqTrue (row.get col))

/-- Python `math.isnan(v)`: defined on numbers (`bool` is an `int`
subclass, so allowed), raises `TypeError` on strings and `None`. -/
def mathIsnan (v : PyVal) : Except PyErr Bool :=
  match v with
  | .bool _ => Except.ok false
  | .int _ => Except.ok false
  | .float _ => Except.ok false
  | .nan => Except.ok true
  | .str _ => Except.error .typeError
  | .none => Except.error .typeError

/-- `a_utils.is_any_nonnull`:
`any(not math.isnan(row[col]) for col in cols)`.  The generator is
evaluated lazily left to right and `any` short-circuits on the first
`True`; `math.isnan` raises `TypeError` when it reaches a non-numeric
value. -/
def is_any_nonnull (row : Row) : List String → Except PyErr Bool
  | [] => Except.ok false
  | col :: cols =>
    match mathIsnan (row.get col) with
    | Except.error e => Except.error e
    | Except.ok b => if !b then Except.ok true else is_any_nonnull row cols

/-- `a_utils.get_percent`, with Python's raising division made
explicit: returns 0 when `total == 0` (the guard in the source),
otherwise `(x / total) * 100`. -/
def get_percent (x : Int) (total : Int) : Except PyErr Rat :=
  if total = 0 then Except.ok 0
  else
    match (if total = 0 then Except.error PyErr.zeroDivisionError
           else Except.ok ((x : Rat) / (total : Rat))) with
    | Except.error e => Except.error e
    | Except.ok q => Except.ok (q * 100)

/-! ### FillRateReporter (`a_utils.plot_fill_rates`) -/

/-- A table: a row count together with named columns, each a list of
cell values (of length the row count for well-formed tables). -/
structure Table where
  numRows : Nat
  cols : List (String × List PyVal)
  deriving DecidableEq, Repr

/-- Count of non-null cells in a column: `sum(~data[col].isnull())`. -/
def countNonNull (cells : List PyVal) : Nat :=
  cells.countP (fun v => !v.isNull)

/-- The numeric part of `a_utils.plot_fill_rates`: for each column, in
table order, `sum(~data[col].isnull()) / total` where
`total = len(data)`.  The division is Python's `/` and raises
`ZeroDivisionError` when `total == 0`; there is no guard in the
source. -/
def fillRates (t : Table) : Except PyErr (List Rat) :=
  t.cols.mapM (fun col =>
    if t.numRows = 0 then Except.error PyErr.zeroDivisionError
    else Except.ok ((countNonNull col.2 : Rat) / (t.numRows : Rat)))

/-! ### ReportAssembler (`GetClinicalReports.startClinicalReports`) -/

/-- The `SYMPTOMS` column list of `a_utils.py`, in source order. -/
def SYMPTOMS : List String :=
  [ "labored_respiration", "rhonchi", "wheezes", "cough", "cough_severity",
    "loss_of_smell", "loss_of_taste", "runny_nose", "muscle_sore",
    "sore_throat", "fever", "sob", "sob_severity", "diarrhea", "fatigue",
    "headache", "ctab", "days_since_symptom_onset" ]

/-- The `VITALS` column list of `a_utils.py`, in source order. -/
def VITALS : List String :=
  ["temperature", "pulse", "sys", "dia", "rr", "sats"]

/-- The label column `LABEL = 'covid19_test_results'`. -/
def LABEL : String := "covid19_test_results"

/-- Python `v == s` for a string literal `s`: true only for equal
strings (numbers, `NaN`, `None` compare unequal to strings). -/
def pyEqStr (v : PyVal) (s : String) : Bool :=
  match v with
  | .str s0 => s0 == s
  | _ => false

/-- An in-memory DataFrame as an ordered list of rows. -/
abbrev RTable := List Row

/-- The data directory: file names with their parsed row lists, in
`os.listdir` order. -/
abbrev DataDir := List (String × RTable)

/-- Python `s.endswith(suffix)`. -/
def strEndsWith (s suffix : String) : Bool :=
  suffix.data.isSuffixOf s.data

/-- `a_utils.open_data`: concatenate the rows of every `.csv` file of
the directory, in listing order. -/
def open_data (dir : DataDir) : RTable :=
  ((dir.filter (fun f => strEndsWith f.1 ".csv")).map (fun f => f.2)).flatten

/-- `a_utils.filter_pos`: rows whose label column equals `'Positive'`. -/
def filter_pos (data : RTable) : RTable :=
  data.filter (fun r => pyEqStr (r.get LABEL) "Positive")

/-- `a_utils.filter_patients` with `col_type='bool'`: keep the rows
where `is_any_true` holds.  (The logging of counts and retention
percentage is a side channel.) -/
def filter_patients_bool (data : RTable) (cols : List String) : RTable :=
  data.filter (fun r => is_any_true r cols)

/-- `a_utils.filter_patients` with `col_type='numeric'`: keep the rows
where `is_any_nonnull` holds; a `TypeError` raised by `math.isnan` on
any row propagates. -/
def filter_patients_numeric (data : RTable) (cols : List String) :
    Except PyErr RTable :=
  data.filterM (fun r => is_any_nonnull r cols)

/-- The column order of a concatenated DataFrame: first occurrence
order of the column names over all rows. -/
def columnsOf (data : RTable) : List String :=
  (data.map (fun r => r.map (fun p => p.1))).flatten.dedup

/-- View a row table as a `Table` (row count plus named cell columns;
a column missing from a row reads as `NaN`, as after `pd.concat`). -/
def tableOf (data : RTable) : Table :=
  ⟨data.length, (columnsOf data).map (fun c => (c, data.map (fun r => r.get c)))⟩

/-- The per-row `is_abnormal_cxr` derivation of
`startClinicalReports`: rows with a null `cxr_impression` are left
unchanged (the derived cell stays missing); on a non-null impression
the classifier result (`False`/`True`/`None`) is stored.  `re.search`
on a non-string raises `TypeError`. -/
def deriveCxrRow (r : Row) : Except PyErr Row :=
  if (r.get "cxr_impression").isNull then Except.ok r
  else
    match r.get "cxr_impression" with
    | .str s =>
      Except.ok (r.set "is_abnormal_cxr"
        (match is_abnormal_cxr s with
         | some b => .bool b
         | Option.none => .none))
    | _ => Except.error .typeError

/-- `sum(1 for sym in SYMPTOMS if x[sym] == True)` for one row. -/
def numSymptoms (r : Row) : Nat :=
  SYMPTOMS.countP (fun sym => pyEqTrue (r.get sym))

/-- The `num_symptoms` column assignment, row by row. -/
def addNumSymptoms (data : RTable) : RTable :=
  data.map (fun r => r.set "num_symptoms" (.int (numSymptoms r)))

/-- The `severity_score` column assignment, row by row. -/
def addSeverityScore (data : RTable) : RTable :=
  data.map (fun r => r.set "severity_score" (.int (get_sym_severity_score r)))

/-- `data.severity_score.apply(get_sym_severity)`: applied to the
integer column just assigned; on a non-number Python's `<` would raise
`TypeError` (unreachable in the pipeline, where the column always
holds integers). -/
def addSymSeverity (data : RTable) : Except PyErr RTable :=
  data.mapM (fun r =>
    match r.get "severity_score" with
    | .int n => Except.ok (r.set "sym_severity" (.str (get_sym_severity n)))
    | _ => Except.error .typeError)

/-- The full derived table the pipeline builds from the loaded data:
CXR derivation, then `num_symptoms`, `severity_score`,
`sym_severity`. -/
def derivedTable (data : RTable) : Except PyErr RTable := do
  let d1 ← data.mapM deriveCxrRow
  addSymSeverity (addSeverityScore (addNumSymptoms d1))

/-- The fixed column subset projected for display at the end of
`startClinicalReports`. -/
def DISPLAY_COLS : List String :=
  [ "batch_date", "test_name", "covid19_test_results", "age",
    "high_risk_exposure_occupation", "diabetes", "temperature", "pulse",
    "cough", "sats" ]

/-- `df[[cols]]`: project a table onto a column list, in that order. -/
def project (cols : List String) (data : RTable) : RTable :=
  data.map (fun r => cols.map (fun c => (c, r.get c)))

/-- The CSV file the final block of `startClinicalReports` re-reads. -/
def RELOAD_FILE : String := "06-16_carbonhealth_and_braidhealth.csv"

/-- Pipeline stages, used as trace events to state execution order. -/
inductive Event where
  | loadData
  | printInfo
  | plotFill
  | filterPositive
  | filterSymptomatic
  | filterVitals
  | deriveCxr
  | deriveNumSymptoms
  | deriveScore
  | deriveSeverity
  | reloadCsv
  | projectCols
  deriving DecidableEq, Repr

/-- Failures that abort `startClinicalReports`: a propagated Python
exception, or the re-read CSV file being absent. -/
inductive ReportErr where
  | py (e : PyErr)
  | fileNotFound
  deriving DecidableEq, Repr

/-- `GetClinicalReports.startClinicalReports`, with an explicit event
trace.  The stages run in the source's straight-line order; the three
filtered subsets are computed and dropped; the returned table is the
`DISPLAY_COLS` projection of the freshly re-read `RELOAD_FILE` (whose
`to_html` rendering handle the source returns). -/
def startClinicalReports (dir : DataDir) :
    Except ReportErr (List Event × RTable) := do
  let ev0 := [Event.loadData]
  let data := open_data dir
  let ev1 := ev0 ++ [Event.printInfo]
  let ev2 := ev1 ++ [Event.plotFill]
  let _fill ← (fillRates (tableOf data)).mapError ReportErr.py
  let ev3 := ev2 ++ [Event.filterPositive]
  let _positive := filter_pos data
  let ev4 := ev3 ++ [Event.filterSymptomatic]
  let _symptomatic := filter_patients_bool data SYMPTOMS
  let ev5 := ev4 ++ [Event.filterVitals]
  let _withVitals ← (filter_patients_numeric data VITALS).mapError ReportErr.py
  let ev6 := ev5 ++ [Event.deriveCxr]
  let dataCxr ← (data.mapM deriveCxrRow).mapError ReportErr.py
  let ev7 := ev6 ++ [Event.deriveNumSymptoms]
  let dataNum := addNumSymptoms dataCxr
  let ev8 := ev7 ++ [Event.deriveScore]
  let dataScore := addSeverityScore dataNum
  let ev9 := ev8 ++ [Event.deriveSeverity]
  let _dataSev ← (addSymSeverity dataScore).mapError ReportErr.py
  let ev10 := ev9 ++ [Event.reloadCsv]
  match dir.lookup RELOAD_FILE with
  | Option.none => Except.error ReportErr.fileNotFound
  | Option.some df =>
    let ev11 := ev10 ++ [Event.projectCols]
    Except.ok (ev11, project DISPLAY_COLS df)

/-- The order of stages the claim describes. -/
def claimedOrder : List Event :=
  [ Event.loadData, Event.plotFill, Event.filterPositive,
    Event.filterSymptomatic, Event.filterVitals, Event.deriveCxr,
    Event.deriveNumSymptoms, Event.deriveScore, Event.deriveSeverity ]

/-- The full stage order `startClinicalReports` actually runs. -/
def fullEventOrder : List Event :=
  [ Event.loadData, Event.printInfo, Event.plotFill, Event.filterPositive,
    Event.filterSymptomatic, Event.filterVitals, Event.deriveCxr,
    Event.deriveNumSymptoms, Event.deriveScore, Event.deriveSeverity,
    Event.reloadCsv, Event.projectCols ]

/-! ### Concrete test data -/

/-- The spec's severity scenario row: `cough_severity="Severe"`,
`sob_severity="Mild"`, `fever=true`, `num_symptoms=2`. -/
def scenarioRowC3 : Row :=
  [ ("cough_severity", .str "Severe"), ("sob_severity", .str "Mild"),
    ("fever", .bool true), ("num_symptoms", .int 2) ]

/-- One data file with a single negative-label row. -/
def rowsA_dir : RTable :=
  [[("batch_date", PyVal.str "2020-06-15"),
    ("covid19_test_results", PyVal.str "Negative")]]

/-- Contents of the re-read CSV file, one positive-label row. -/
def rowsReload_dir : RTable :=
  [[("batch_date", PyVal.str "2020-06-16"),
    ("covid19_test_results", PyVal.str "Positive")]]

/-- A data directory with two CSV files: the loaded table concatenates
both, while the final projection re-reads only `RELOAD_FILE`. -/
def dirTwoFiles : DataDir :=
  [("a.csv", rowsA_dir), (RELOAD_FILE, rowsReload_dir)]

instance {e a : Type} [DecidableEq e] [DecidableEq a] :
    DecidableEq (Except e a) := fun x y =>
  match x, y with
  | .ok v, .ok w =>
    if h : v = w then isTrue (by rw [h])
    else isFalse (fun he => h (Except.ok.inj he))
  | .error v, .error w =>
    if h : v = w then isTrue (by rw [h])
    else isFalse (fun he => h (Except.error.inj he))
  | .ok _, .error _ => isFalse (fun he => Except.noConfusion he)
  | .error _, .ok _ => isFalse (fun he => Except.noConfusion he)

/-! ## Theorems -/

/-- The dict lookup `SEVERITY_MAPPINGS.get(v, 0)` agrees with the
spec's `severityWeight` mapping on every value. -/
lemma severityMappingsGet_eq (v : PyVal) :
    severityMappingsGet v = specSeverityWeight v := by
  cases v <;> try rfl
  case str s =>
    unfold severityMappingsGet specSeverityWeight SEVERITY_MAPPINGS
    by_cases h1 : s = "Mild"
    · subst h1; rfl
    by_cases h2 : s = "Moderate"
    · subst h2; rfl
    by_cases h3 : s = "Severe"
    · subst h3; rfl
    have m1 : ("Mild" == s) = false := beq_eq_false_iff_ne.mpr (fun h => h1 h.symm)
    have m2 : ("Moderate" == s) = false := beq_eq_false_iff_ne.mpr (fun h => h2 h.symm)
    have m3 : ("Severe" == s) = false := beq_eq_false_iff_ne.mpr (fun h => h3 h.symm)
    simp [List.find?, m1, m2, m3, h1, h2, h3]

/-- C1: for every row, `get_sym_severity_score` returns -1 when the
row's `num_symptoms` field equals 0, and otherwise
`severityWeight(cough_severity) + severityWeight(sob_severity) +
(1 if fever == true else 0)`, where `severityWeight` maps Mild to 1,
Moderate to 2, Severe to 3, and any other or absent value to 0 —
i.e. the code's scorer coincides with the spec's `score`. -/
theorem severity_score_matches_spec (row : Row) :
    get_sym_severity_score row = specScore row := by
  unfold get_sym_severity_score specScore
  rw [severityMappingsGet_eq, severityMappingsGet_eq]

/-- C2: `is_abnormal_cxr` tries the normal-pattern list first (a match
yields not-abnormal, `some false`, even when an abnormal pattern also
matches, as the last conjunct shows on a string matched by both
lists), then the abnormal list (`some true`), and yields `none` when
neither list matches; the spec's four example texts classify as
stated. -/
theorem is_abnormal_cxr_spec :
    (∀ s : String,
      (is_abnormal_cxr s = some false ↔
        NO_ABNORMALITIES.any (fun p => reSearch p s) = true) ∧
      (is_abnormal_cxr s = some true ↔
        NO_ABNORMALITIES.any (fun p => reSearch p s) = false ∧
        ABNORMALITIES.any (fun p => reSearch p s) = true) ∧
      (is_abnormal_cxr s = none ↔
        NO_ABNORMALITIES.any (fun p => reSearch p s) = false ∧
        ABNORMALITIES.any (fun p => reSearch p s) = false)) ∧
    is_abnormal_cxr "Normal" = some false ∧
    is_abnormal_cxr "No acute cardiopulmonary disease" = some false ∧
    is_abnormal_cxr "Multifocal pulmonary opacities" = some true ∧
    is_abnormal_cxr "" = none ∧
    is_abnormal_cxr "Normal Multifocal pulmonary opacities" = some false := by
  refine ⟨fun s => ?_, by decide, by decide, by decide, by decide, by decide⟩
  unfold is_abnormal_cxr
  split_ifs with hn ha <;> simp_all

/-- C3: `get_sym_severity` buckets exactly as the spec's half-open
intervals prescribe, and the spec's scenario row (severe cough, mild
shortness of breath, fever, two symptoms) scores 3+1+1 = 5 and lands
in the Severe bucket. -/
theorem bucket_matches_spec :
    (∀ s : Int, get_sym_severity s = specBucket s) ∧
    get_sym_severity_score scenarioRowC3 = 5 ∧
    get_sym_severity (get_sym_severity_score scenarioRowC3) = "Severe" := by
  refine ⟨fun s => ?_, by decide, by decide⟩
  unfold get_sym_severity specBucket
  split_ifs <;> first | rfl | omega

/-- C4 counterexample: on a zero-row table with one column, the
fill-rate computation divides `sum(~isnull)` by `len(data) = 0` with
no guard, so it raises `ZeroDivisionError` rather than returning rate
0 for every column. -/
theorem fillRates_empty_cex :
    fillRates ⟨0, [("age", [])]⟩ = Except.error PyErr.zeroDivisionError := rfl

/-- C4 amended: on a zero-row table, `plot_fill_rates` raises
`ZeroDivisionError` as soon as there is at least one column; only a
zero-row, zero-column table passes (with an empty rate list).  The
explicit return-0-on-empty rule lives in `get_percent`, which
`plot_fill_rates` does not use. -/
theorem fillRates_empty_amended (t : Table) (h : t.numRows = 0) :
    (t.cols = [] → fillRates t = Except.ok []) ∧
    (t.cols ≠ [] → fillRates t = Except.error PyErr.zeroDivisionError) := by
  rcases t with ⟨n, cols⟩
  simp only at h
  subst h
  constructor
  · intro hc
    simp only at hc
    subst hc
    rfl
  · intro hc
    cases cols with
    | nil => exact absurd rfl hc
    | cons a l =>
      show List.mapM _ _ = _
      rw [List.mapM_cons]
      rfl

/-- C4 witness: the amended statement evaluated on a zero-row table
with no columns and one with two columns. -/
theorem fillRates_empty_amended_witness :
    fillRates ⟨0, ([] : List (String × List PyVal))⟩ = Except.ok [] ∧
    fillRates ⟨0, [("age", []), ("pulse", [])]⟩ =
      Except.error PyErr.zeroDivisionError :=
  ⟨(fillRates_empty_amended ⟨0, []⟩ rfl).1 rfl,
   (fillRates_empty_amended ⟨0, [("age", []), ("pulse", [])]⟩ rfl).2
     (by simp)⟩

/-- C5 counterexample: on a directory with two CSV files, the table
`startClinicalReports` returns is not the `DISPLAY_COLS` projection of
the full derived table built by the pipeline — the source re-reads a
single fixed CSV file for the final projection, dropping the derived
table. -/
theorem report_projection_cex :
    (startClinicalReports dirTwoFiles).map Prod.snd ≠
      ((derivedTable (open_data dirTwoFiles)).map
        (project DISPLAY_COLS)).mapError ReportErr.py := by
  decide

/-- C5 amended: whenever `startClinicalReports` succeeds, its stages
ran in the fixed source order (which contains the claimed order as a
subsequence); the three filtered subsets do not gate the result; but
the returned value is the fixed-column projection of the freshly
re-read `RELOAD_FILE` table, not of the pipeline's derived table. -/
theorem startClinicalReports_amended (dir : DataDir) (evs : List Event)
    (res : RTable) (h : startClinicalReports dir = Except.ok (evs, res)) :
    evs = fullEventOrder ∧
    claimedOrder.Sublist evs ∧
    ∃ df, dir.lookup RELOAD_FILE = some df ∧ res = project DISPLAY_COLS df := by
  unfold startClinicalReports at h
  cases hf : (fillRates (tableOf (open_data dir))) with
  | error e =>
    simp only [hf, bind, Except.bind, Except.mapError] at h
    exact Except.noConfusion h
  | ok fr =>
    cases hv : (filter_patients_numeric (open_data dir) VITALS) with
    | error e =>
      simp only [hf, hv, bind, Except.bind, Except.mapError] at h
      exact Except.noConfusion h
    | ok wv =>
      cases hc : ((open_data dir).mapM deriveCxrRow) with
      | error e =>
        simp only [hf, hv, hc, bind, Except.bind, Except.mapError] at h
        exact Except.noConfusion h
      | ok dc =>
        cases hs : (addSymSeverity (addSeverityScore (addNumSymptoms dc))) with
        | error e =>
          simp only [hf, hv, hc, hs, bind, Except.bind, Except.mapError] at h
          exact Except.noConfusion h
        | ok ds =>
          cases hl : dir.lookup RELOAD_FILE with
          | none =>
            simp only [hf, hv, hc, hs, hl, bind, Except.bind, Except.mapError] at h
            exact Except.noConfusion h
          | some df =>
            simp only [hf, hv, hc, hs, hl, bind, Except.bind, Except.mapError,
              Except.ok.injEq, Prod.mk.injEq] at h
            obtain ⟨hev, hres⟩ := h
            subst hev
            subst hres
            refine ⟨rfl, by decide, df, rfl, rfl⟩

/-- C5 witness: the amended statement instantiated on the two-file
directory, on which the pipeline succeeds. -/
theorem startClinicalReports_amended_witness :
    fullEventOrder = fullEventOrder ∧
    claimedOrder.Sublist fullEventOrder ∧
    ∃ df, dirTwoFiles.lookup RELOAD_FILE = some df ∧
      project DISPLAY_COLS rowsReload_dir = project DISPLAY_COLS df :=
  startClinicalReports_amended dirTwoFiles fullEventOrder
    (project DISPLAY_COLS rowsReload_dir) (by decide)

/-- Both branches of the spec's `severityWeight` land in [0, 3]. -/
lemma specSeverityWeight_bounds (v : PyVal) :
    0 ≤ specSeverityWeight v ∧ specSeverityWeight v ≤ 3 := by
  unfold specSeverityWeight
  split_ifs <;> omega

/-- C6: for every row, the severity score lies in [-1, 7], whatever
values the `cough_severity`, `sob_severity` and `fever` fields hold,
and it equals -1 exactly in the asymptomatic case (`num_symptoms`
equal to 0). -/
theorem severity_score_range (row : Row) :
    -1 ≤ get_sym_severity_score row ∧ get_sym_severity_score row ≤ 7 ∧
    (get_sym_severity_score row = -1 ↔
      pyEqZero (row.get "num_symptoms") = true) := by
  unfold get_sym_severity_score
  rw [severityMappingsGet_eq, severityMappingsGet_eq]
  have h1 := specSeverityWeight_bounds (row.get "cough_severity")
  have h2 := specSeverityWeight_bounds (row.get "sob_severity")
  split_ifs with h0 hf <;> simp_all <;> omega

/-- The bucket of a score, read off as a rank in the label ordering
Asymptomatic < Extremely Mild < Mild < Moderate < Severe. -/
lemma severityRank_get_sym_severity (s : Int) :
    severityRank (get_sym_severity s) =
      if s < 0 then 0 else if s < 1 then 1 else if s < 2 then 2
      else if s < 3 then 3 else 4 := by
  unfold get_sym_severity severityRank
  split_ifs <;> simp_all

/-- C7: the bucket function is monotonic — for integer scores
`s1 <= s2`, the label of `s1` is at most the label of `s2` in the
severity ordering. -/
theorem bucket_monotone (s1 s2 : Int) (h : s1 ≤ s2) :
    severityRank (get_sym_severity s1) ≤ severityRank (get_sym_severity s2) := by
  rw [severityRank_get_sym_severity, severityRank_get_sym_severity]
  split_ifs <;> omega

/-- C7 witness: monotonicity evaluated at scores 0 and 3. -/
theorem bucket_monotone_witness :
    severityRank (get_sym_severity 0) ≤ severityRank (get_sym_severity 3) :=
  bucket_monotone 0 3 (by decide)

/-- C8: `is_any_true` returns false when every named column is boolean
false or missing, and true whenever at least one named column holds
boolean true. -/
theorem is_any_true_spec (row : Row) (cols : List String) :
    ((∀ c ∈ cols, row.get c = .bool false ∨ (row.get c).isNull = true) →
      is_any_true row cols = false) ∧
    (∀ c ∈ cols, row.get c = .bool true → is_any_true row cols = true) := by
  constructor
  · intro hall
    unfold is_any_true
    rw [List.any_eq_false]
    intro c hc
    rcases hall c hc with h | h
    · simp [pyEqTrue, h]
    · cases hv : row.get c <;> simp_all [PyVal.isNull, pyEqTrue]
  · intro c hc htrue
    unfold is_any_true
    rw [List.any_eq_true]
    exact ⟨c, hc, by simp [htrue, pyEqTrue]⟩

/-- C8 witness: an all-false-or-missing row yields false; a row with
exactly one true column yields true. -/
theorem is_any_true_spec_witness :
    is_any_true [("cough", PyVal.bool false), ("fever", PyVal.nan)]
        ["cough", "fever"] = false ∧
    is_any_true [("cough", PyVal.bool true), ("fever", PyVal.bool false)]
        ["cough", "fever"] = true :=
  ⟨(is_any_true_spec _ _).1 (by decide),
   (is_any_true_spec _ _).2 "cough" (by decide) (by decide)⟩

/-- C9: `get_percent` returns 0 whenever the denominator is 0 and
`(x / total) * 100` otherwise, and never raises a division-by-zero
error for any pair of arguments (the result is always `ok`). -/
theorem get_percent_spec (x total : Int) :
    get_percent x total =
      Except.ok (if total = 0 then 0 else ((x : Rat) / (total : Rat)) * 100) := by
  unfold get_percent
  split_ifs <;> simp

/-- C10: when the first examined column of `is_any_nonnull` holds a
string (for example a missing value encoded as an empty string rather
than a NaN float), the call raises `TypeError` instead of treating the
value as present or missing. -/
theorem is_any_nonnull_typeerror (row : Row) (c : String)
    (cols : List String) (s : String) (h : row.get c = .str s) :
    is_any_nonnull row (c :: cols) = Except.error PyErr.typeError := by
  unfold is_any_nonnull
  rw [h]
  rfl

/-- C10 witness: a temperature recorded as the string "98.6" makes the
vitals predicate raise `TypeError`. -/
theorem is_any_nonnull_typeerror_witness :
    is_any_nonnull [("temperature", PyVal.str "98.6")]
        ["temperature", "pulse"] = Except.error PyErr.typeError :=
  is_any_nonnull_typeerror _ "temperature" ["pulse"] "98.6" (by decide)

end CovidDiag
